import Mathlib

/-!
Shallow embedding of the smart-home device hierarchy from this repository.
The repository contains three near-duplicate revisions of the same class
hierarchy; each is embedded in its own namespace:

* `Hpp`     — the classes and inline method bodies of `smart_devices.hpp`;
* `Ll`      — the standalone revision in `ll.cpp`;
* `MainCpp` — the method bodies defined in `main.cpp`.

`double` fields are modelled as `ℚ` (every formula in the code is a ratio of
machine integers and field values; no rounding behaviour is at issue in the
claims), `time_t` as `ℤ`, C++ `int` as `ℤ`, and the process-wide statics
`totalDevicesCreated` / `totalEnergyConsumedAll` are threaded through the
constructors and `turnOff` explicitly.  A C++ function that can `throw` is
modelled with `Except String`; a function with no throw path is total.
-/

namespace Hpp

/-- State of `SmartDevice` (`smart_devices.hpp`, lines 77-196). -/
structure SmartDevice where
  deviceId : String
  deviceName : String
  isOn : Bool
deriving Repr, DecidableEq

/-- `SmartDevice::SmartDevice(id, name)` (hpp lines 91-94): sets
`isOn = false` and increments the static `totalDevicesCreated`. -/
def mkSmartDevice (counter : ℕ) (id name : String) : SmartDevice × ℕ :=
  (⟨id, name, false⟩, counter + 1)

/-- `SmartDevice::SmartDevice(const SmartDevice&)` (hpp lines 102-107):
copies `isOn`, decorates id and name, increments the counter. -/
def copySmartDevice (counter : ℕ) (other : SmartDevice) : SmartDevice × ℕ :=
  (⟨other.deviceId ++ ("_copy"), other.deviceName ++ (" (copy)"), other.isOn⟩,
   counter + 1)

/-- State of `PoweredDevice` (hpp lines 217-337). -/
structure PoweredDevice extends SmartDevice where
  powerConsumption : ℚ
  lastTurnOnTime : ℤ
  totalOnTime : ℤ
deriving Repr, DecidableEq

/-- `PoweredDevice::PoweredDevice(id, name, power)` (hpp lines 343-348):
the `SmartDevice` base constructor runs first (incrementing the counter),
then the body throws `std::invalid_argument` when `power <= 0`. -/
def mkPoweredDevice (counter : ℕ) (id name : String) (power : ℚ) :
    Except String PoweredDevice × ℕ :=
  let p := mkSmartDevice counter id name
  (if power ≤ 0 then Except.error ("Power consumption must be positive")
   else Except.ok ⟨p.1, power, 0, 0⟩, p.2)

/-- `PoweredDevice::PoweredDevice(const PoweredDevice&)` (hpp lines 350-355):
copies the wattage, resets the timing statistics to 0. -/
def copyPoweredDevice (counter : ℕ) (other : PoweredDevice) : PoweredDevice × ℕ :=
  let p := copySmartDevice counter other.toSmartDevice
  (⟨p.1, other.powerConsumption, 0, 0⟩, p.2)

/-- `PoweredDevice::turnOn()` (hpp lines 367-372). -/
def PoweredDevice.turnOn (now : ℤ) (d : PoweredDevice) : PoweredDevice :=
  if d.isOn then d
  else { d with isOn := true, lastTurnOnTime := now }

/-- `PoweredDevice::turnOff()` (hpp lines 374-385): when on, clears `isOn`,
adds the session time to `totalOnTime` and adds
`powerConsumption * sessionTime / 3600` watt-hours to the static
`totalEnergyConsumedAll` (threaded here as the second component). -/
def PoweredDevice.turnOff (now : ℤ) (d : PoweredDevice) (totalEnergy : ℚ) :
    PoweredDevice × ℚ :=
  if d.isOn then
    let sessionTime : ℤ := now - d.lastTurnOnTime
    ({ d with isOn := false, totalOnTime := d.totalOnTime + sessionTime },
     totalEnergy + d.powerConsumption * (sessionTime : ℚ) / 3600)
  else (d, totalEnergy)

/-- `PoweredDevice::getPowerUsage()` (hpp lines 278-280). -/
def PoweredDevice.getPowerUsage (d : PoweredDevice) : ℚ :=
  if d.isOn then d.powerConsumption else 0

/-- `PoweredDevice::getTotalOnTime()` (hpp lines 387-392). -/
def PoweredDevice.getTotalOnTime (now : ℤ) (d : PoweredDevice) : ℤ :=
  if d.isOn then d.totalOnTime + (now - d.lastTurnOnTime) else d.totalOnTime

/-- `PoweredDevice::getDeviceEnergyConsumed()` (hpp lines 401-404). -/
def PoweredDevice.getDeviceEnergyConsumed (now : ℤ) (d : PoweredDevice) : ℚ :=
  d.powerConsumption * ((d.getTotalOnTime now : ℤ) : ℚ) / 3600

/-- The mutable process state the statics and the live objects occupy. -/
structure ProgState where
  totalDevicesCreated : ℕ
  totalEnergyConsumedAll : ℚ
  devices : List PoweredDevice

/-- `PoweredDevice::resetEnergyConsumption()` (hpp lines 410-412): the body
is the single assignment `totalEnergyConsumedAll = 0.0;` — no device object
is touched. -/
def resetEnergyConsumption (s : ProgState) : ProgState :=
  { s with totalEnergyConsumedAll := 0 }

/-- State of `LightBulb` (hpp lines 445-530). -/
structure LightBulb extends PoweredDevice where
  brightness : ℤ
  color : String
deriving Repr, DecidableEq

/-- `LightBulb::LightBulb` (hpp lines 533-539): the `PoweredDevice` base
constructor runs first (counter bump, power check), then the body throws
when `brightness` is outside `[0,100]`. -/
def mkLightBulb (counter : ℕ) (id name : String) (power : ℚ) (brightness : ℤ)
    (color : String) : Except String LightBulb × ℕ :=
  let p := mkPoweredDevice counter id name power
  (match p.1 with
   | Except.error e => Except.error e
   | Except.ok pd =>
     if brightness < 0 ∨ brightness > 100 then
       Except.error ("Yarkost dolznha bit 0-100")
     else Except.ok ⟨pd, brightness, color⟩, p.2)

/-- `LightBulb::LightBulb(const LightBulb&)` (hpp lines 541-543). -/
def copyLightBulb (counter : ℕ) (other : LightBulb) : LightBulb × ℕ :=
  let p := copyPoweredDevice counter other.toPoweredDevice
  (⟨p.1, other.brightness, other.color⟩, p.2)

/-- `LightBulb::setBrightness(level)` (hpp lines 571-576): throws when
`level` is outside `[0,100]` (leaving the object untouched), otherwise
assigns `brightness = level`. -/
def LightBulb.setBrightness (level : ℤ) (b : LightBulb) :
    Except String Unit × LightBulb :=
  if level < 0 ∨ level > 100 then
    (Except.error ("Yarkost dolznha bit 0-100"), b)
  else (Except.ok (), { b with brightness := level })

/-- `LightBulb::getCurrentPower()` (hpp lines 481-483). -/
def LightBulb.getCurrentPower (b : LightBulb) : ℚ :=
  if b.isOn then b.powerConsumption else 0

/-- State of `Thermostat` in the hpp revision (hpp lines 606-700): a current
temperature and a string mode — this revision has no target temperature. -/
structure Thermostat extends PoweredDevice where
  currentTemperature : ℚ
  mode : String
deriving Repr, DecidableEq

/-- `Thermostat::Thermostat` (hpp lines 703-706): `mode` starts as
`"display"`; the `PoweredDevice` base constructor supplies the power check. -/
def mkThermostat (counter : ℕ) (id name : String) (power initialTemp : ℚ) :
    Except String Thermostat × ℕ :=
  let p := mkPoweredDevice counter id name power
  (match p.1 with
   | Except.error e => Except.error e
   | Except.ok pd => Except.ok ⟨pd, initialTemp, ("display")⟩, p.2)

/-- `Thermostat::Thermostat(const Thermostat&)` (hpp lines 708-710). -/
def copyThermostat (counter : ℕ) (other : Thermostat) : Thermostat × ℕ :=
  let p := copyPoweredDevice counter other.toPoweredDevice
  (⟨p.1, other.currentTemperature, other.mode⟩, p.2)

/-- `Thermostat::turnOn()` (hpp lines 721-727). -/
def Thermostat.turnOn (now : ℤ) (t : Thermostat) : Thermostat :=
  if t.isOn then t
  else { t with isOn := true, lastTurnOnTime := now, mode := ("monitoring") }

/-- `Thermostat::turnOff()` (hpp lines 729-734). -/
def Thermostat.turnOff (now : ℤ) (t : Thermostat) (totalEnergy : ℚ) :
    Thermostat × ℚ :=
  if t.isOn then
    let p := PoweredDevice.turnOff now t.toPoweredDevice totalEnergy
    ({ t with toPoweredDevice := p.1, mode := ("display") }, p.2)
  else (t, totalEnergy)

/-- `Thermostat::setMode(newMode)` (hpp lines 758-763): throws unless the
mode is `"display"` or `"monitoring"`; never touches `isOn`. -/
def Thermostat.setMode (m : String) (t : Thermostat) :
    Except String Unit × Thermostat :=
  if m ≠ ("display") ∧ m ≠ ("monitoring") then
    (Except.error ("Rezhim dolzhen byt ili monitoring ili display"), t)
  else (Except.ok (), { t with mode := m })

/-- `Thermostat::getCurrentPower()` (hpp lines 640-642): flat wattage when
on, 0 when off — no dependence on temperature in this revision. -/
def Thermostat.getCurrentPower (t : Thermostat) : ℚ :=
  if t.isOn then t.powerConsumption else 0

/-- State of `SmartOutlet` in the hpp revision (hpp lines 790-879). -/
structure SmartOutlet extends PoweredDevice where
  outletOn : Bool
deriving Repr, DecidableEq

/-- `SmartOutlet::SmartOutlet` (hpp lines 882-884). -/
def mkSmartOutlet (counter : ℕ) (id name : String) (power : ℚ) :
    Except String SmartOutlet × ℕ :=
  let p := mkPoweredDevice counter id name power
  (match p.1 with
   | Except.error e => Except.error e
   | Except.ok pd => Except.ok ⟨pd, false⟩, p.2)

/-- `SmartOutlet::SmartOutlet(const SmartOutlet&)` (hpp lines 886-888). -/
def copySmartOutlet (counter : ℕ) (other : SmartOutlet) : SmartOutlet × ℕ :=
  let p := copyPoweredDevice counter other.toPoweredDevice
  (⟨p.1, other.outletOn⟩, p.2)

/-- `SmartOutlet::getCurrentPower()` (hpp lines 822-824):
`(isOn && outletOn) ? powerConsumption : 0.0`. -/
def SmartOutlet.getCurrentPower (o : SmartOutlet) : ℚ :=
  if o.isOn && o.outletOn then o.powerConsumption else 0

/-- One construction event in the hpp revision: a call to one of the
variant constructors (primary or copy). -/
inductive CreationStep where
  | bulb (id name : String) (power : ℚ) (brightness : ℤ) (color : String)
  | thermo (id name : String) (power initialTemp : ℚ)
  | outlet (id name : String) (power : ℚ)
  | copyBulb (other : LightBulb)
  | copyThermo (other : Thermostat)
  | copyOutlet (other : SmartOutlet)

/-- The value of `totalDevicesCreated` after executing one construction
event against the hpp constructors, starting from `counter`. -/
def applyStep (counter : ℕ) (s : CreationStep) : ℕ :=
  match s with
  | CreationStep.bulb id name power br color => (mkLightBulb counter id name power br color).2
  | CreationStep.thermo id name power t0 => (mkThermostat counter id name power t0).2
  | CreationStep.outlet id name power => (mkSmartOutlet counter id name power).2
  | CreationStep.copyBulb other => (copyLightBulb counter other).2
  | CreationStep.copyThermo other => (copyThermostat counter other).2
  | CreationStep.copyOutlet other => (copySmartOutlet counter other).2

/-- The counter after a whole sequence of construction events. -/
def runCounter (counter : ℕ) (steps : List CreationStep) : ℕ :=
  steps.foldl applyStep counter

end Hpp

namespace Ll

/-- State of `SmartDevice` in the `ll.cpp` revision (lines 19-54).  This
revision declares no copy constructor, so copying a device uses the
implicitly generated one: all fields are copied verbatim and
`totalDevicesCreated` is NOT incremented. -/
structure SmartDevice where
  deviceId : String
  deviceName : String
  isOn : Bool
deriving Repr, DecidableEq

/-- `SmartDevice::SmartDevice(id, name)` (`ll.cpp` lines 26-29). -/
def mkSmartDevice (counter : ℕ) (id name : String) : SmartDevice × ℕ :=
  (⟨id, name, false⟩, counter + 1)

/-- State of `PoweredDevice` in `ll.cpp` (lines 60-116).  The static
`totalEnergyConsumed` of this revision is kept in kilowatt-hours (the code
comments the field with that unit). -/
structure PoweredDevice extends SmartDevice where
  powerConsumption : ℚ
  lastTurnOnTime : ℤ
  totalOnTime : ℤ
deriving Repr, DecidableEq

/-- `PoweredDevice::PoweredDevice(id, name, power)` (`ll.cpp` lines 70-72):
no validation of `power` at all — any value, zero or negative included, is
accepted and an object is produced. -/
def mkPoweredDevice (counter : ℕ) (id name : String) (power : ℚ) :
    PoweredDevice × ℕ :=
  let p := mkSmartDevice counter id name
  (⟨p.1, power, 0, 0⟩, p.2)

/-- The implicitly generated `PoweredDevice` copy constructor of `ll.cpp`:
every field (timing statistics included) is copied and the static device
counter is left unchanged. -/
def copyPoweredDevice (counter : ℕ) (other : PoweredDevice) :
    PoweredDevice × ℕ :=
  (⟨⟨other.deviceId, other.deviceName, other.isOn⟩,
    other.powerConsumption, other.lastTurnOnTime, other.totalOnTime⟩, counter)

/-- `PoweredDevice::turnOn()` (`ll.cpp` lines 77-82). -/
def PoweredDevice.turnOn (now : ℤ) (d : PoweredDevice) : PoweredDevice :=
  if d.isOn then d
  else { d with isOn := true, lastTurnOnTime := now }

/-- `PoweredDevice::turnOff()` (`ll.cpp` lines 84-95): as in the hpp
revision but the energy added to the static counter is
`powerConsumption * onDuration / 3600000` — the same physical energy,
expressed in kilowatt-hours. -/
def PoweredDevice.turnOff (now : ℤ) (d : PoweredDevice) (totalEnergy : ℚ) :
    PoweredDevice × ℚ :=
  if d.isOn then
    let onDuration : ℤ := now - d.lastTurnOnTime
    ({ d with isOn := false, totalOnTime := d.totalOnTime + onDuration },
     totalEnergy + d.powerConsumption * (onDuration : ℚ) / 3600000)
  else (d, totalEnergy)

/-- `PoweredDevice::getPowerUsage()` (`ll.cpp` lines 98-100). -/
def PoweredDevice.getPowerUsage (d : PoweredDevice) : ℚ :=
  if d.isOn then d.powerConsumption else 0

/-- State of `LightBulb` in `ll.cpp` (lines 122-176). -/
structure LightBulb extends PoweredDevice where
  brightness : ℤ
  color : String
deriving Repr, DecidableEq

/-- `LightBulb::LightBulb` (`ll.cpp` lines 128-134): the base constructor
(no power check in this revision) runs first, then the body throws when
`brightness` is outside `[0,100]`. -/
def mkLightBulb (counter : ℕ) (id name : String) (power : ℚ) (brightness : ℤ)
    (color : String) : Except String LightBulb × ℕ :=
  let p := mkPoweredDevice counter id name power
  (if brightness < 0 ∨ brightness > 100 then
     Except.error ("Brightness must be between 0 and 100")
   else Except.ok ⟨p.1, brightness, color⟩, p.2)

/-- `LightBulb::LightBulb(const LightBulb&)` (`ll.cpp` lines 137-138):
delegates to the implicit `PoweredDevice` copy constructor; no constructor
in the chain increments `totalDevicesCreated`. -/
def copyLightBulb (counter : ℕ) (other : LightBulb) : LightBulb × ℕ :=
  let p := copyPoweredDevice counter other.toPoweredDevice
  (⟨p.1, other.brightness, other.color⟩, p.2)

/-- `LightBulb::setBrightness(level)` (`ll.cpp` lines 164-168): assigns the
level when it lies in `[0,100]` and otherwise does nothing — this revision
has no throw path, so the function is total. -/
def LightBulb.setBrightness (level : ℤ) (b : LightBulb) : LightBulb :=
  if 0 ≤ level ∧ level ≤ 100 then { b with brightness := level } else b

/-- State of `Thermostat` in `ll.cpp` (lines 179-262): current and target
temperatures and a mode the code documents as "heating", "cooling", "off". -/
structure Thermostat extends PoweredDevice where
  currentTemperature : ℚ
  targetTemperature : ℚ
  mode : String
deriving Repr, DecidableEq

/-- `Thermostat::Thermostat` (`ll.cpp` lines 186-189): target starts equal
to the initial temperature and `mode` starts as `"off"`. -/
def mkThermostat (counter : ℕ) (id name : String) (power initialTemp : ℚ) :
    Thermostat × ℕ :=
  let p := mkPoweredDevice counter id name power
  (⟨p.1, initialTemp, initialTemp, ("off")⟩, p.2)

/-- `Thermostat::turnOn()` (`ll.cpp` lines 207-212). -/
def Thermostat.turnOn (now : ℤ) (t : Thermostat) : Thermostat :=
  let pd := PoweredDevice.turnOn now t.toPoweredDevice
  let t2 := { t with toPoweredDevice := pd }
  if t2.mode = ("off") then { t2 with mode := ("heating") } else t2

/-- `Thermostat::turnOff()` (`ll.cpp` lines 214-217). -/
def Thermostat.turnOff (now : ℤ) (t : Thermostat) (totalEnergy : ℚ) :
    Thermostat × ℚ :=
  let p := PoweredDevice.turnOff now t.toPoweredDevice totalEnergy
  ({ t with toPoweredDevice := p.1, mode := ("off") }, p.2)

/-- `Thermostat::getPowerUsage()` (`ll.cpp` lines 233-239). -/
def Thermostat.getPowerUsage (t : Thermostat) : ℚ :=
  if ¬t.isOn ∨ t.mode = ("off") then 0
  else t.powerConsumption *
    (1 / 2 + |t.targetTemperature - t.currentTemperature| / 10)

/-- `Thermostat::setMode(newMode)` (`ll.cpp` lines 252-257): no validation
whatsoever — the mode is assigned unconditionally, and the device is turned
on when the new mode is not `"off"` and it was off. -/
def Thermostat.setMode (now : ℤ) (m : String) (t : Thermostat) : Thermostat :=
  let t2 := { t with mode := m }
  if m ≠ ("off") ∧ ¬t2.isOn then Thermostat.turnOn now t2 else t2

/-- State of `SmartOutlet` in `ll.cpp` (lines 265-345). -/
structure SmartOutlet extends PoweredDevice where
  outletOn : Bool
  voltage : ℚ
  maxCurrent : ℚ
  location : String
  sensorCounter : ℤ
deriving Repr, DecidableEq

/-- `SmartOutlet::SmartOutlet` (`ll.cpp` lines 274-278). -/
def mkSmartOutlet (counter : ℕ) (id name : String)
    (power maxCurrent : ℚ) (location : String) : SmartOutlet × ℕ :=
  let p := mkPoweredDevice counter id name power
  (⟨p.1, false, 220, maxCurrent, location, 0⟩, p.2)

/-- `SmartOutlet::getPowerUsage()` (`ll.cpp` lines 330-335). -/
def SmartOutlet.getPowerUsage (o : SmartOutlet) : ℚ :=
  if ¬o.isOn ∨ ¬o.outletOn then 0 else o.powerConsumption

/-- `SmartOutlet::toggleOutlet()` (`ll.cpp` lines 338-340): unconditional
flip in this revision. -/
def SmartOutlet.toggleOutlet (o : SmartOutlet) : SmartOutlet :=
  { o with outletOn := !o.outletOn }

end Ll

namespace MainCpp

/-- Device identity state used by the `main.cpp` method bodies. -/
structure SmartDevice where
  deviceId : String
  deviceName : String
  isOn : Bool
deriving Repr, DecidableEq

/-- `PoweredDevice` state as used by the `main.cpp` bodies. -/
structure PoweredDevice extends SmartDevice where
  powerConsumption : ℚ
  lastTurnOnTime : ℤ
  totalOnTime : ℤ
deriving Repr, DecidableEq

/-- `PoweredDevice::PoweredDevice` (`main.cpp` lines 15-17): no power
check in this revision. -/
def mkPoweredDevice (counter : ℕ) (id name : String) (power : ℚ) :
    PoweredDevice × ℕ :=
  (⟨⟨id, name, false⟩, power, 0, 0⟩, counter + 1)

/-- `PoweredDevice::turnOn()` (`main.cpp` lines 35-40). -/
def PoweredDevice.turnOn (now : ℤ) (d : PoweredDevice) : PoweredDevice :=
  if d.isOn then d
  else { d with isOn := true, lastTurnOnTime := now }

/-- `PoweredDevice::turnOff()` (`main.cpp` lines 42-53): adds
`powerConsumption * onDuration / 3600` watt-hours to the global counter. -/
def PoweredDevice.turnOff (now : ℤ) (d : PoweredDevice) (totalEnergy : ℚ) :
    PoweredDevice × ℚ :=
  if d.isOn then
    let onDuration : ℤ := now - d.lastTurnOnTime
    ({ d with isOn := false, totalOnTime := d.totalOnTime + onDuration },
     totalEnergy + d.powerConsumption * ((onDuration : ℚ) / 3600))
  else (d, totalEnergy)

/-- `LightBulb` state as used by the `main.cpp` bodies. -/
structure LightBulb extends PoweredDevice where
  brightness : ℤ
  color : String
deriving Repr, DecidableEq

/-- `LightBulb::setBrightness(level)` (`main.cpp` lines 144-150): assigns
in-range levels and throws `std::invalid_argument` on anything else,
leaving the object untouched. -/
def LightBulb.setBrightness (level : ℤ) (b : LightBulb) :
    Except String Unit × LightBulb :=
  if 0 ≤ level ∧ level ≤ 100 then (Except.ok (), { b with brightness := level })
  else (Except.error ("Yarkost dolzhna byt ot 0 do 100"), b)

/-- `Thermostat` state as used by the `main.cpp` bodies (current and
target temperatures, mode in heating/cooling/off). -/
structure Thermostat extends PoweredDevice where
  currentTemperature : ℚ
  targetTemperature : ℚ
  mode : String
deriving Repr, DecidableEq

/-- `Thermostat::Thermostat` (`main.cpp` lines 177-180). -/
def mkThermostat (counter : ℕ) (id name : String) (power initialTemp : ℚ) :
    Thermostat × ℕ :=
  let p := mkPoweredDevice counter id name power
  (⟨p.1, initialTemp, initialTemp, ("off")⟩, p.2)

/-- `Thermostat::turnOn()` (`main.cpp` lines 196-201). -/
def Thermostat.turnOn (now : ℤ) (t : Thermostat) : Thermostat :=
  let pd := PoweredDevice.turnOn now t.toPoweredDevice
  let t2 := { t with toPoweredDevice := pd }
  if t2.mode = ("off") then { t2 with mode := ("heating") } else t2

/-- `Thermostat::getPowerUsage()` (`main.cpp` lines 221-227): zero when
off or in mode `"off"`, else `powerConsumption * (0.5 + |target-current|/10)`. -/
def Thermostat.getPowerUsage (t : Thermostat) : ℚ :=
  if ¬t.isOn ∨ t.mode = ("off") then 0
  else t.powerConsumption *
    (1 / 2 + |t.targetTemperature - t.currentTemperature| / 10)

/-- `Thermostat::setMode(newMode)` (`main.cpp` lines 240-249): accepts only
`"heating"`, `"cooling"`, `"off"`; a recognized non-off mode set while the
device is off triggers `turnOn()`; anything else throws leaving the object
untouched. -/
def Thermostat.setMode (now : ℤ) (m : String) (t : Thermostat) :
    Except String Unit × Thermostat :=
  if m = ("heating") ∨ m = ("cooling") ∨ m = ("off") then
    let t2 := { t with mode := m }
    if m ≠ ("off") ∧ ¬t2.isOn then (Except.ok (), Thermostat.turnOn now t2)
    else (Except.ok (), t2)
  else (Except.error ("Rezhim dolzhen byt heating, cooling ili off"), t)

end MainCpp

/-- A concrete off light bulb of the hpp revision, as produced by
`Hpp.mkLightBulb 0 "LB1" "Lamp" 60 75 "white"`. -/
def sampleHppBulb : Hpp.LightBulb :=
  ⟨⟨⟨("LB1"), ("Lamp"), false⟩, 60, 0, 0⟩, 75, ("white")⟩

/-- A concrete off `display`-mode thermostat of the hpp revision. -/
def hppThermoDisplay : Hpp.Thermostat :=
  ⟨⟨⟨("TH1"), ("Termostat"), false⟩, 1000, 0, 0⟩, 20, ("display")⟩

/-- A concrete on and engaged smart outlet of the hpp revision. -/
def hppOutletEngaged : Hpp.SmartOutlet :=
  ⟨⟨⟨("SO1"), ("Rozetka"), true⟩, 5, 0, 0⟩, true⟩

/-- A concrete off `main.cpp` thermostat in mode `"off"`. -/
def mainThermoOff : MainCpp.Thermostat :=
  ⟨⟨⟨("TH1"), ("Termostat"), false⟩, 1000, 0, 0⟩, 20, 20, ("off")⟩

/-- An on heating `main.cpp` thermostat 5 degrees away from its target. -/
def mainThermoNear : MainCpp.Thermostat :=
  ⟨⟨⟨("TH2"), ("Termostat"), true⟩, 100, 0, 0⟩, 20, 25, ("heating")⟩

/-- An on heating `main.cpp` thermostat 10 degrees away from its target. -/
def mainThermoFar : MainCpp.Thermostat :=
  ⟨⟨⟨("TH3"), ("Termostat"), true⟩, 100, 0, 0⟩, 20, 30, ("heating")⟩

/-- A concrete `main.cpp` light bulb at brightness 75. -/
def mainBulb : MainCpp.LightBulb :=
  ⟨⟨⟨("LB1"), ("Lamp"), false⟩, 60, 0, 0⟩, 75, ("white")⟩

/-- Every hpp construction event bumps `totalDevicesCreated` by exactly one,
whether it is a primary constructor (successful or throwing) or a copy
constructor. -/
theorem Hpp.applyStep_succ (c : ℕ) (s : Hpp.CreationStep) :
    Hpp.applyStep c s = c + 1 := by
  cases s <;> rfl

/-- Claim C1: on a device that is on, `turnOff` clears the on flag, adds the
elapsed session time `now - lastTurnOnTime` to the accumulated on-time and
adds `powerConsumption * elapsed / 3600` watt-hours to the global energy
counter; on a device that is off it changes nothing.  A `turnOn`, wait Δ,
`turnOff` round trip from an off state adds exactly Δ seconds and
`powerConsumption * Δ / 3600` watt-hours.  In the `ll.cpp` revision the
global counter is kept in kilowatt-hours, so the same watt-hour quantity is
added divided by 1000. -/
theorem c1_turnOff_energy_accounting :
    (∀ (now : ℤ) (d : Hpp.PoweredDevice) (E : ℚ),
      Hpp.PoweredDevice.turnOff now d E =
        (if d.isOn then
           { d with isOn := false,
                    totalOnTime := d.totalOnTime + (now - d.lastTurnOnTime) }
         else d,
         if d.isOn then
           E + d.powerConsumption * ((now - d.lastTurnOnTime : ℤ) : ℚ) / 3600
         else E)) ∧
    (∀ (t Δ : ℤ) (d : Hpp.PoweredDevice) (E : ℚ),
      (Hpp.PoweredDevice.turnOff (t + Δ)
        (Hpp.PoweredDevice.turnOn t { d with isOn := false }) E).1.isOn = false ∧
      (Hpp.PoweredDevice.turnOff (t + Δ)
        (Hpp.PoweredDevice.turnOn t { d with isOn := false }) E).1.totalOnTime =
        d.totalOnTime + Δ ∧
      (Hpp.PoweredDevice.turnOff (t + Δ)
        (Hpp.PoweredDevice.turnOn t { d with isOn := false }) E).2 =
        E + d.powerConsumption * (Δ : ℚ) / 3600) ∧
    (∀ (now : ℤ) (d : Ll.PoweredDevice) (E : ℚ),
      Ll.PoweredDevice.turnOff now d E =
        (if d.isOn then
           { d with isOn := false,
                    totalOnTime := d.totalOnTime + (now - d.lastTurnOnTime) }
         else d,
         if d.isOn then
           E + (d.powerConsumption * ((now - d.lastTurnOnTime : ℤ) : ℚ) / 3600) / 1000
         else E)) := by
  refine ⟨?_, ?_, ?_⟩
  · intro now d E
    by_cases h : d.isOn <;> simp [Hpp.PoweredDevice.turnOff, h]
  · intro t Δ d E
    simp only [Hpp.PoweredDevice.turnOn, Hpp.PoweredDevice.turnOff]
    norm_num
  · intro now d E
    by_cases h : d.isOn <;> simp [Ll.PoweredDevice.turnOff, h]
    ring

/-- Claim C8 counterexample: in the `ll.cpp` revision, starting from counter
0, constructing a light bulb and then copy-constructing it creates two
devices but leaves `totalDevicesCreated` at 1, not 0 + 2 — copies do not
increment the counter in that revision. -/
theorem c8_counterexample :
    (Ll.mkLightBulb 0 ("LB1") ("Lampochka") 60 50 ("white")).2 = 1 ∧
    ((Ll.mkLightBulb 0 ("LB1") ("Lampochka") 60 50 ("white")).1.map
      (fun b => (Ll.copyLightBulb 1 b).2)) = Except.ok 1 ∧
    (1 : ℕ) ≠ 0 + 2 := by
  refine ⟨rfl, rfl, by decide⟩

/-- Claim C8 (amended): in the hpp revision every construction event —
primary constructor of any variant or copy constructor — increments
`totalDevicesCreated` by exactly one, so after any sequence of N
construction events the counter equals its starting value plus N; in the
`ll.cpp` revision copy construction leaves the counter unchanged. -/
theorem c8_total_devices_counter :
    (∀ (c : ℕ) (steps : List Hpp.CreationStep),
      Hpp.runCounter c steps = c + steps.length) ∧
    (∀ (c : ℕ) (b : Ll.LightBulb), (Ll.copyLightBulb c b).2 = c) := by
  constructor
  · intro c steps
    induction steps generalizing c with
    | nil => simp [Hpp.runCounter]
    | cons s rest ih =>
      have h1 : Hpp.runCounter c (s :: rest) = Hpp.runCounter (Hpp.applyStep c s) rest := rfl
      rw [h1, ih, Hpp.applyStep_succ]
      simp
      omega
  · intro c b
    rfl

/-- Claim C9: `resetEnergyConsumption` zeroes the process-wide energy total
and nothing else: the device-count static and every device object — hence
each device's accumulated on-time and per-device energy figure — are
exactly as before the call. -/
theorem c9_reset_global_energy_frame :
    ∀ (s : Hpp.ProgState) (now : ℤ),
      (Hpp.resetEnergyConsumption s).totalEnergyConsumedAll = 0 ∧
      (Hpp.resetEnergyConsumption s).devices = s.devices ∧
      (Hpp.resetEnergyConsumption s).totalDevicesCreated = s.totalDevicesCreated ∧
      (Hpp.resetEnergyConsumption s).devices.map
          (Hpp.PoweredDevice.getTotalOnTime now) =
        s.devices.map (Hpp.PoweredDevice.getTotalOnTime now) ∧
      (Hpp.resetEnergyConsumption s).devices.map
          (Hpp.PoweredDevice.getDeviceEnergyConsumed now) =
        s.devices.map (Hpp.PoweredDevice.getDeviceEnergyConsumed now) :=
  fun _ _ => ⟨rfl, rfl, rfl, rfl, rfl⟩

/-- Claim C7 counterexample: copy construction does not reset the on flag.
A thermostat turned on at time 10 and then copy-constructed yields a copy
whose `isOn` is `true` immediately after construction, contradicting
"`on` equals `false` immediately after construction ... by any construction
path, including copy construction". -/
theorem c7_counterexample :
    (Hpp.mkThermostat 0 ("TH1") ("Termostat") 1000 20).1.map
        (fun th => ((Hpp.copyThermostat 1 (Hpp.Thermostat.turnOn 10 th)).1).isOn)
      = Except.ok true := by
  rfl

/-- Claim C7 (amended): every successful primary construction — any variant,
either revision — produces a device with `isOn = false`; copy construction
instead copies the source's on flag, so a copy of an on device starts on. -/
theorem c7_on_flag_after_construction :
    (∀ (c : ℕ) (id name : String) (p : ℚ) (br : ℤ) (col : String)
        (b : Hpp.LightBulb) (c2 : ℕ),
      Hpp.mkLightBulb c id name p br col = (Except.ok b, c2) → b.isOn = false) ∧
    (∀ (c : ℕ) (id name : String) (p t0 : ℚ) (th : Hpp.Thermostat) (c2 : ℕ),
      Hpp.mkThermostat c id name p t0 = (Except.ok th, c2) → th.isOn = false) ∧
    (∀ (c : ℕ) (id name : String) (p : ℚ) (o : Hpp.SmartOutlet) (c2 : ℕ),
      Hpp.mkSmartOutlet c id name p = (Except.ok o, c2) → o.isOn = false) ∧
    (∀ (c : ℕ) (id name : String) (p : ℚ) (br : ℤ) (col : String)
        (b : Ll.LightBulb) (c2 : ℕ),
      Ll.mkLightBulb c id name p br col = (Except.ok b, c2) → b.isOn = false) ∧
    (∀ (c : ℕ) (id name : String) (p t0 : ℚ),
      ((Ll.mkThermostat c id name p t0).1).isOn = false) ∧
    (∀ (c : ℕ) (id name : String) (p mc : ℚ) (loc : String),
      ((Ll.mkSmartOutlet c id name p mc loc).1).isOn = false) ∧
    (∀ (c : ℕ) (s : Hpp.SmartDevice),
      ((Hpp.copySmartDevice c s).1).isOn = s.isOn) ∧
    (∀ (c : ℕ) (d : Hpp.PoweredDevice),
      ((Hpp.copyPoweredDevice c d).1).isOn = d.isOn) ∧
    (∀ (c : ℕ) (b : Hpp.LightBulb),
      ((Hpp.copyLightBulb c b).1).isOn = b.isOn) ∧
    (∀ (c : ℕ) (t : Hpp.Thermostat),
      ((Hpp.copyThermostat c t).1).isOn = t.isOn) ∧
    (∀ (c : ℕ) (o : Hpp.SmartOutlet),
      ((Hpp.copySmartOutlet c o).1).isOn = o.isOn) ∧
    (∀ (c : ℕ) (b : Ll.LightBulb),
      ((Ll.copyLightBulb c b).1).isOn = b.isOn) := by
  refine ⟨?_, ?_, ?_, ?_, fun _ _ _ _ _ => rfl, fun _ _ _ _ _ _ => rfl,
    fun _ _ => rfl, fun _ _ => rfl, fun _ _ => rfl, fun _ _ => rfl,
    fun _ _ => rfl, fun _ _ => rfl⟩
  · intro c id name p br col b c2 h
    by_cases hp : p ≤ 0
    · simp [Hpp.mkLightBulb, Hpp.mkPoweredDevice, Hpp.mkSmartDevice, hp] at h
    · by_cases hb : br < 0 ∨ br > 100
      · simp [Hpp.mkLightBulb, Hpp.mkPoweredDevice, Hpp.mkSmartDevice, hp, hb] at h
      · simp [Hpp.mkLightBulb, Hpp.mkPoweredDevice, Hpp.mkSmartDevice, hp, hb] at h
        rw [← h.1]
  · intro c id name p t0 th c2 h
    by_cases hp : p ≤ 0
    · simp [Hpp.mkThermostat, Hpp.mkPoweredDevice, Hpp.mkSmartDevice, hp] at h
    · simp [Hpp.mkThermostat, Hpp.mkPoweredDevice, Hpp.mkSmartDevice, hp] at h
      rw [← h.1]
  · intro c id name p o c2 h
    by_cases hp : p ≤ 0
    · simp [Hpp.mkSmartOutlet, Hpp.mkPoweredDevice, Hpp.mkSmartDevice, hp] at h
    · simp [Hpp.mkSmartOutlet, Hpp.mkPoweredDevice, Hpp.mkSmartDevice, hp] at h
      rw [← h.1]
  · intro c id name p br col b c2 h
    by_cases hb : br < 0 ∨ br > 100
    · simp [Ll.mkLightBulb, Ll.mkPoweredDevice, Ll.mkSmartDevice, hb] at h
    · simp [Ll.mkLightBulb, Ll.mkPoweredDevice, Ll.mkSmartDevice, hb] at h
      rw [← h.1]

/-- Claim C7 witness: the amended theorem applied to the concrete bulb
produced by `Hpp.mkLightBulb 0 "LB1" "Lamp" 60 75 "white"`. -/
theorem c7_on_flag_after_construction_witness :
    sampleHppBulb.isOn = false :=
  c7_on_flag_after_construction.1 0 ("LB1") ("Lamp") 60 75 ("white")
    sampleHppBulb 1 rfl

/-- Claim C10: when a powered-device or light-bulb construction fails in
the hpp revision — non-positive power, or out-of-range brightness — the
`SmartDevice` base constructor has already incremented
`totalDevicesCreated`, so the counter ends at `c + 1` even though no object
is produced: it counts attempted constructions. -/
theorem c10_counter_counts_failed_constructions :
    ∀ (c : ℕ) (id name : String) (p : ℚ) (br : ℤ) (col : String),
      (p ≤ 0 →
        (Hpp.mkPoweredDevice c id name p).2 = c + 1 ∧
        (Hpp.mkPoweredDevice c id name p).1 =
          Except.error ("Power consumption must be positive") ∧
        (Hpp.mkLightBulb c id name p br col).2 = c + 1 ∧
        (Hpp.mkLightBulb c id name p br col).1 =
          Except.error ("Power consumption must be positive")) ∧
      (0 < p → (br < 0 ∨ br > 100) →
        (Hpp.mkLightBulb c id name p br col).2 = c + 1 ∧
        (Hpp.mkLightBulb c id name p br col).1 =
          Except.error ("Yarkost dolznha bit 0-100")) := by
  intro c id name p br col
  constructor
  · intro hp
    refine ⟨rfl, ?_, rfl, ?_⟩ <;>
      simp [Hpp.mkPoweredDevice, Hpp.mkLightBulb, Hpp.mkSmartDevice, hp]
  · intro hp hb
    have hp2 : ¬p ≤ 0 := not_le.mpr hp
    refine ⟨rfl, ?_⟩
    simp [Hpp.mkPoweredDevice, Hpp.mkLightBulb, Hpp.mkSmartDevice, hp2, hb]

/-- Claim C10 witness: the theorem applied at power `-1` (failing
`PoweredDevice` construction) and at brightness `150` (failing `LightBulb`
construction); both leave the counter incremented. -/
theorem c10_counter_counts_failed_constructions_witness :
    ((Hpp.mkPoweredDevice 3 ("P1") ("Pribor") (-1)).2 = 3 + 1 ∧
      (Hpp.mkPoweredDevice 3 ("P1") ("Pribor") (-1)).1 =
        Except.error ("Power consumption must be positive") ∧
      (Hpp.mkLightBulb 3 ("P1") ("Pribor") (-1) 50 ("white")).2 = 3 + 1 ∧
      (Hpp.mkLightBulb 3 ("P1") ("Pribor") (-1) 50 ("white")).1 =
        Except.error ("Power consumption must be positive")) ∧
    ((Hpp.mkLightBulb 7 ("LB9") ("Lampa") 60 150 ("white")).2 = 7 + 1 ∧
      (Hpp.mkLightBulb 7 ("LB9") ("Lampa") 60 150 ("white")).1 =
        Except.error ("Yarkost dolznha bit 0-100")) :=
  ⟨(c10_counter_counts_failed_constructions 3 ("P1") ("Pribor") (-1) 50
      ("white")).1 (by norm_num),
   (c10_counter_counts_failed_constructions 7 ("LB9") ("Lampa") 60 150
      ("white")).2 (by norm_num) (by norm_num)⟩

/-- Claim C6 counterexample: in the `ll.cpp` revision, constructing a
`LightBulb` (hence its `PoweredDevice` base) with power `-5 ≤ 0` succeeds
and produces an object whose `powerConsumption` is `-5` — no
InvalidConfiguration error is raised there. -/
theorem c6_counterexample :
    (Ll.mkLightBulb 0 ("LB1") ("Lampa") (-5) 50 ("white")).1.map
        (fun b => b.powerConsumption) = Except.ok (-5) ∧
    (-5 : ℚ) ≤ 0 := by
  refine ⟨rfl, by norm_num⟩

/-- Claim C6 (amended): in the hpp revision any construction with
`power ≤ 0` fails with the InvalidConfiguration error and no object is
produced, while `power > 0` succeeds; in the `ll.cpp` revision the
constructor performs no power check, so a `LightBulb` with any power value
is produced whenever its brightness is in range. -/
theorem c6_power_validation_by_revision :
    (∀ (c : ℕ) (id name : String) (p : ℚ), p ≤ 0 →
      (Hpp.mkPoweredDevice c id name p).1 =
        Except.error ("Power consumption must be positive")) ∧
    (∀ (c : ℕ) (id name : String) (p : ℚ), 0 < p →
      (Hpp.mkPoweredDevice c id name p).1 =
        Except.ok ⟨⟨id, name, false⟩, p, 0, 0⟩) ∧
    (∀ (c : ℕ) (id name : String) (p t0 : ℚ), p ≤ 0 →
      (Hpp.mkThermostat c id name p t0).1 =
        Except.error ("Power consumption must be positive")) ∧
    (∀ (c : ℕ) (id name : String) (p : ℚ), p ≤ 0 →
      (Hpp.mkSmartOutlet c id name p).1 =
        Except.error ("Power consumption must be positive")) ∧
    (∀ (c : ℕ) (id name : String) (p : ℚ) (br : ℤ) (col : String),
      0 ≤ br → br ≤ 100 →
      (Ll.mkLightBulb c id name p br col).1 =
        Except.ok ⟨⟨⟨id, name, false⟩, p, 0, 0⟩, br, col⟩) := by
  refine ⟨?_, ?_, ?_, ?_, ?_⟩
  · intro c id name p hp
    simp [Hpp.mkPoweredDevice, Hpp.mkSmartDevice, hp]
  · intro c id name p hp
    simp [Hpp.mkPoweredDevice, Hpp.mkSmartDevice, not_le.mpr hp]
  · intro c id name p t0 hp
    simp [Hpp.mkThermostat, Hpp.mkPoweredDevice, Hpp.mkSmartDevice, hp]
  · intro c id name p hp
    simp [Hpp.mkSmartOutlet, Hpp.mkPoweredDevice, Hpp.mkSmartDevice, hp]
  · intro c id name p br col hb1 hb2
    have hb : ¬(br < 0 ∨ br > 100) := by omega
    simp [Ll.mkLightBulb, Ll.mkPoweredDevice, Ll.mkSmartDevice, hb]

/-- Claim C6 witness: the amended theorem applied at power `0` (hpp
revision refuses) and at power `-5` (`ll.cpp` revision accepts). -/
theorem c6_power_validation_by_revision_witness :
    (Hpp.mkPoweredDevice 0 ("P1") ("Pribor") 0).1 =
      Except.error ("Power consumption must be positive") ∧
    (Ll.mkLightBulb 0 ("LB2") ("Lampa") (-5) 75 ("red")).1 =
      Except.ok ⟨⟨⟨("LB2"), ("Lampa"), false⟩, -5, 0, 0⟩, 75, ("red")⟩ :=
  ⟨c6_power_validation_by_revision.1 0 ("P1") ("Pribor") 0 (by norm_num),
   c6_power_validation_by_revision.2.2.2.2 0 ("LB2") ("Lampa") (-5) 75 ("red")
     (by norm_num) (by norm_num)⟩

/-- Claim C2 counterexample: in the `ll.cpp` revision,
`setBrightness(150)` on a bulb at brightness 50 does not raise anything —
the function has no throw path at all — and returns with the brightness
still 50, although `150 ∉ [0,100]`. -/
theorem c2_counterexample :
    (Ll.mkLightBulb 0 ("LB1") ("Lampa") 60 50 ("white")).1.map
        (fun b => (Ll.LightBulb.setBrightness 150 b).brightness) =
      Except.ok 50 ∧
    (150 : ℤ) > 100 := by
  refine ⟨rfl, by decide⟩

/-- Claim C2 (amended): in the hpp and `main.cpp` revisions
`setBrightness(level)` raises InvalidArgument exactly when
`level ∉ [0,100]`, leaving `brightness` (and the whole object) at its prior
value on failure, and sets `brightness = level` on success; in the `ll.cpp`
revision an out-of-range level is silently ignored — no error, object
unchanged — and an in-range level sets `brightness = level`. -/
theorem c2_setBrightness_by_revision :
    (∀ (level : ℤ) (b : Hpp.LightBulb),
      ((level < 0 ∨ level > 100) →
        Hpp.LightBulb.setBrightness level b =
          (Except.error ("Yarkost dolznha bit 0-100"), b)) ∧
      (0 ≤ level → level ≤ 100 →
        Hpp.LightBulb.setBrightness level b =
          (Except.ok (), { b with brightness := level }))) ∧
    (∀ (level : ℤ) (b : MainCpp.LightBulb),
      ((level < 0 ∨ level > 100) →
        MainCpp.LightBulb.setBrightness level b =
          (Except.error ("Yarkost dolzhna byt ot 0 do 100"), b)) ∧
      (0 ≤ level → level ≤ 100 →
        MainCpp.LightBulb.setBrightness level b =
          (Except.ok (), { b with brightness := level }))) ∧
    (∀ (level : ℤ) (b : Ll.LightBulb),
      ((level < 0 ∨ level > 100) → Ll.LightBulb.setBrightness level b = b) ∧
      (0 ≤ level → level ≤ 100 →
        Ll.LightBulb.setBrightness level b = { b with brightness := level })) := by
  refine ⟨fun level b => ⟨?_, ?_⟩, fun level b => ⟨?_, ?_⟩, fun level b => ⟨?_, ?_⟩⟩
  · intro h
    simp [Hpp.LightBulb.setBrightness, h]
  · intro h1 h2
    have h : ¬(level < 0 ∨ level > 100) := by omega
    simp [Hpp.LightBulb.setBrightness, h]
  · intro h
    have h2 : ¬(0 ≤ level ∧ level ≤ 100) := by omega
    simp [MainCpp.LightBulb.setBrightness, h2]
  · intro h1 h2
    simp [MainCpp.LightBulb.setBrightness, h1, h2]
  · intro h
    have h2 : ¬(0 ≤ level ∧ level ≤ 100) := by omega
    simp [Ll.LightBulb.setBrightness, h2]
  · intro h1 h2
    simp [Ll.LightBulb.setBrightness, h1, h2]

/-- Claim C2 witness: the amended theorem applied to the hpp bulb at
brightness 75 with the out-of-range level 150 and the in-range level 20. -/
theorem c2_setBrightness_by_revision_witness :
    Hpp.LightBulb.setBrightness 150 sampleHppBulb =
      (Except.error ("Yarkost dolznha bit 0-100"), sampleHppBulb) ∧
    Hpp.LightBulb.setBrightness 20 sampleHppBulb =
      (Except.ok (), { sampleHppBulb with brightness := 20 }) :=
  ⟨(c2_setBrightness_by_revision.1 150 sampleHppBulb).1 (by decide),
   (c2_setBrightness_by_revision.1 20 sampleHppBulb).2 (by decide) (by decide)⟩

/-- Claim C3 counterexample: in the hpp variant the recognized mode set is
`{"display", "monitoring"}`; on an off thermostat, `setMode("monitoring")`
— a recognized mode that is neither "off" nor "display" — succeeds but
leaves the device off, contradicting "it succeeds and implicitly turns the
device on". -/
theorem c3_counterexample :
    hppThermoDisplay.isOn = false ∧
    Hpp.Thermostat.setMode ("monitoring") hppThermoDisplay =
      (Except.ok (), { hppThermoDisplay with mode := ("monitoring") }) ∧
    ({ hppThermoDisplay with mode := ("monitoring") } : Hpp.Thermostat).isOn
      = false := by
  refine ⟨rfl, ?_, rfl⟩
  rfl

/-- Claim C3 (amended): in the `main.cpp` variant (modes
heating/cooling/off) `setMode` raises InvalidArgument on an unrecognized
mode leaving the object unchanged, and setting heating or cooling while
off succeeds and turns the device on; in the hpp variant (modes
display/monitoring) an unrecognized mode raises InvalidArgument leaving
the object unchanged, but `setMode` never changes the on flag; in the
`ll.cpp` variant `setMode` accepts any string unconditionally and turns
the device on whenever the new mode is not "off". -/
theorem c3_setMode_by_variant :
    (∀ (now : ℤ) (m : String) (t : MainCpp.Thermostat),
      (¬(m = ("heating") ∨ m = ("cooling") ∨ m = ("off")) →
        MainCpp.Thermostat.setMode now m t =
          (Except.error ("Rezhim dolzhen byt heating, cooling ili off"), t)) ∧
      ((m = ("heating") ∨ m = ("cooling")) → t.isOn = false →
        (MainCpp.Thermostat.setMode now m t).1 = Except.ok () ∧
        ((MainCpp.Thermostat.setMode now m t).2).isOn = true ∧
        ((MainCpp.Thermostat.setMode now m t).2).mode = m)) ∧
    (∀ (m : String) (t : Hpp.Thermostat),
      (m ≠ ("display") → m ≠ ("monitoring") →
        Hpp.Thermostat.setMode m t =
          (Except.error ("Rezhim dolzhen byt ili monitoring ili display"), t)) ∧
      ((Hpp.Thermostat.setMode m t).2).isOn = t.isOn) ∧
    (∀ (now : ℤ) (m : String) (t : Ll.Thermostat),
      (m ≠ ("off") →
        (Ll.Thermostat.setMode now m t).mode = m ∧
        (Ll.Thermostat.setMode now m t).isOn = true) ∧
      (m = ("off") →
        Ll.Thermostat.setMode now m t = { t with mode := ("off") })) := by
  refine ⟨fun now m t => ⟨?_, ?_⟩, fun m t => ⟨?_, ?_⟩, fun now m t => ⟨?_, ?_⟩⟩
  · intro h
    simp [MainCpp.Thermostat.setMode, h]
  · intro hm hoff
    have hv : m = ("heating") ∨ m = ("cooling") ∨ m = ("off") := by
      rcases hm with h | h <;> simp [h]
    have hno : m ≠ ("off") := by
      rcases hm with h | h <;> simp [h]
    simp only [MainCpp.Thermostat.setMode, if_pos hv]
    rw [if_pos ⟨hno, by simp [hoff]⟩]
    refine ⟨rfl, ?_, ?_⟩ <;>
      simp [MainCpp.Thermostat.turnOn, MainCpp.PoweredDevice.turnOn, hoff, hno]
  · intro h1 h2
    simp [Hpp.Thermostat.setMode, h1, h2]
  · by_cases h : m ≠ ("display") ∧ m ≠ ("monitoring") <;>
      simp [Hpp.Thermostat.setMode, h]
  · intro hno
    by_cases hon : t.isOn
    · simp [Ll.Thermostat.setMode, hno, hon]
    · simp only [Ll.Thermostat.setMode]
      rw [if_pos ⟨hno, by simp [hon]⟩]
      constructor <;>
        simp [Ll.Thermostat.turnOn, Ll.PoweredDevice.turnOn, hon, hno]
  · intro h
    simp [Ll.Thermostat.setMode, h]

/-- Claim C3 witness: the amended theorem applied to the off `main.cpp`
thermostat — `setMode("invalid")` errors leaving it unchanged, and
`setMode("heating")` succeeds and turns it on. -/
theorem c3_setMode_by_variant_witness :
    MainCpp.Thermostat.setMode 5 ("invalid") mainThermoOff =
      (Except.error ("Rezhim dolzhen byt heating, cooling ili off"),
       mainThermoOff) ∧
    (MainCpp.Thermostat.setMode 5 ("heating") mainThermoOff).1 = Except.ok () ∧
    ((MainCpp.Thermostat.setMode 5 ("heating") mainThermoOff).2).isOn = true ∧
    ((MainCpp.Thermostat.setMode 5 ("heating") mainThermoOff).2).mode
      = ("heating") :=
  ⟨(c3_setMode_by_variant.1 5 ("invalid") mainThermoOff).1 (by decide),
   (c3_setMode_by_variant.1 5 ("heating") mainThermoOff).2
     (Or.inl rfl) rfl⟩

/-- Claim C4: the heating/cooling thermostat's `getPowerUsage` is 0 exactly
when the device is off or the mode is "off", and otherwise equals
`powerConsumption * (0.5 + |target - current| / 10)`; for a fixed positive
wattage it strictly increases with `|target - current|`.  The hpp
thermostat variant has no target temperature; its `getCurrentPower` is
covered by the off-implies-zero clause. -/
theorem c4_thermostat_power_formula :
    (∀ t : MainCpp.Thermostat,
      ((t.isOn = false ∨ t.mode = ("off")) →
        MainCpp.Thermostat.getPowerUsage t = 0) ∧
      (t.isOn = true → t.mode ≠ ("off") →
        MainCpp.Thermostat.getPowerUsage t =
          t.powerConsumption *
            (1 / 2 + |t.targetTemperature - t.currentTemperature| / 10))) ∧
    (∀ t₁ t₂ : MainCpp.Thermostat,
      t₁.isOn = true → t₂.isOn = true →
      t₁.mode ≠ ("off") → t₂.mode ≠ ("off") →
      t₁.powerConsumption = t₂.powerConsumption →
      0 < t₁.powerConsumption →
      |t₁.targetTemperature - t₁.currentTemperature| <
        |t₂.targetTemperature - t₂.currentTemperature| →
      MainCpp.Thermostat.getPowerUsage t₁ <
        MainCpp.Thermostat.getPowerUsage t₂) ∧
    (∀ t : Hpp.Thermostat, t.isOn = false →
      Hpp.Thermostat.getCurrentPower t = 0) := by
  refine ⟨fun t => ⟨?_, ?_⟩, ?_, ?_⟩
  · intro h
    rcases h with h | h <;> simp [MainCpp.Thermostat.getPowerUsage, h]
  · intro h1 h2
    simp [MainCpp.Thermostat.getPowerUsage, h1, h2]
  · intro t₁ t₂ h1 h2 hm1 hm2 hp hpos hd
    simp only [MainCpp.Thermostat.getPowerUsage, h1, h2]
    rw [if_neg (by simp [hm1]), if_neg (by simp [hm2]), ← hp]
    apply mul_lt_mul_of_pos_left _ hpos
    linarith
  · intro t h
    simp [Hpp.Thermostat.getCurrentPower, h]

/-- Claim C4 witness: the theorem applied to two concrete on heating
thermostats with the same 100 W rating, 5 and 10 degrees away from target:
the closer one draws strictly less power. -/
theorem c4_thermostat_power_formula_witness :
    MainCpp.Thermostat.getPowerUsage mainThermoNear <
      MainCpp.Thermostat.getPowerUsage mainThermoFar :=
  c4_thermostat_power_formula.2.1 mainThermoNear mainThermoFar rfl rfl
    (by decide) (by decide) rfl (by norm_num [mainThermoNear])
    (by norm_num [mainThermoNear, mainThermoFar, abs_of_nonneg])

/-- Claim C5: in both revisions that define it, the smart outlet's current
power reading is nonzero — and then equal to `powerConsumption` — exactly
when the device is on and the outlet is engaged, and is 0 in every other
state (the rated wattage being positive, as the hpp constructor enforces). -/
theorem c5_outlet_power_iff :
    (∀ o : Hpp.SmartOutlet, 0 < o.powerConsumption →
      (Hpp.SmartOutlet.getCurrentPower o ≠ 0 ↔
        o.isOn = true ∧ o.outletOn = true) ∧
      (o.isOn = true → o.outletOn = true →
        Hpp.SmartOutlet.getCurrentPower o = o.powerConsumption) ∧
      (¬(o.isOn = true ∧ o.outletOn = true) →
        Hpp.SmartOutlet.getCurrentPower o = 0)) ∧
    (∀ o : Ll.SmartOutlet, 0 < o.powerConsumption →
      (Ll.SmartOutlet.getPowerUsage o ≠ 0 ↔
        o.isOn = true ∧ o.outletOn = true) ∧
      (o.isOn = true → o.outletOn = true →
        Ll.SmartOutlet.getPowerUsage o = o.powerConsumption) ∧
      (¬(o.isOn = true ∧ o.outletOn = true) →
        Ll.SmartOutlet.getPowerUsage o = 0)) := by
  constructor
  · intro o hpos
    have hne : o.powerConsumption ≠ 0 := ne_of_gt hpos
    by_cases h1 : o.isOn <;> by_cases h2 : o.outletOn <;>
      simp [Hpp.SmartOutlet.getCurrentPower, h1, h2, hne]
  · intro o hpos
    have hne : o.powerConsumption ≠ 0 := ne_of_gt hpos
    by_cases h1 : o.isOn <;> by_cases h2 : o.outletOn <;>
      simp [Ll.SmartOutlet.getPowerUsage, h1, h2, hne]

/-- Claim C5 witness: the theorem applied to the concrete on, engaged 5 W
hpp outlet: its current power is its rated wattage. -/
theorem c5_outlet_power_iff_witness :
    Hpp.SmartOutlet.getCurrentPower hppOutletEngaged =
      hppOutletEngaged.powerConsumption :=
  (c5_outlet_power_iff.1 hppOutletEngaged (by norm_num [hppOutletEngaged])).2.1
    rfl rfl
